import Mathlib

/-!
Verification of the ItemInfo read-model projection layer of miro.data.item
(file src/tv/lib/data/item.py).

An ItemInfo is an immutable tuple of nullable scalar columns selected from a
LEFT JOIN of the item, feed, remote_downloader and icon_cache tables, plus a
set of derived read-only properties.  We embed the row as a Lean structure
whose fields are `Option`-typed scalars (a `none` models SQL NULL, i.e. an
absent related row or a null column) and each derived property as a pure Lean
function of the row.  Properties whose Python body can raise are embedded
with result type `Except PyError _`, with one `PyError` constructor per
Python exception class the body can actually raise.

Timestamps and durations are modelled as integers (seconds); byte sizes and
counters as integers; Python float arithmetic as exact rational arithmetic
(the only float constants involved, 1.5 and 2, are exactly representable, and
the claims under study concern branch selection and ordering facts that are
insensitive to rounding).
-/

/-- The Python exceptions the embedded property bodies can raise. -/
inductive PyError where
  | typeError
  | attributeError
  | nameError
  | assertionError
  | zeroDivisionError
  deriving Repr, DecidableEq

/-- One row of the four-table LEFT JOIN, one field per SelectColumn of
`_column_info`, in source order, named by the column's `attr_name`.
All fields except the primary key are nullable (left-join semantics). -/
structure ItemInfo where
  id : Int := 0
  new : Option Bool := none
  title : Option String := none
  feed_id : Option Int := none
  parent_id : Option Int := none
  parent_title : Option String := none
  downloader_id : Option Int := none
  is_file_item : Option Bool := none
  pending_manual_download : Option Bool := none
  pending_reason : Option String := none
  expired : Option Bool := none
  keep : Option Bool := none
  date_added : Option Int := none
  downloaded_time : Option Int := none
  watched_time : Option Int := none
  last_watched : Option Int := none
  subtitle_encoding : Option String := none
  is_container_item : Option Bool := none
  release_date : Option Int := none
  duration_ms : Option Int := none
  screenshot : Option String := none
  resume_time : Option Int := none
  license : Option String := none
  rss_id : Option String := none
  entry_description : Option String := none
  mime_type : Option String := none
  enclosure_format : Option String := none
  enclosure_size : Option Int := none
  permalink : Option String := none
  payment_link : Option String := none
  comments_link : Option String := none
  url : Option String := none
  was_downloaded : Option Bool := none
  raw_filename : Option String := none
  play_count : Option Int := none
  skip_count : Option Int := none
  cover_art : Option String := none
  description : Option String := none
  album : Option String := none
  album_artist : Option String := none
  artist : Option String := none
  track : Option Int := none
  album_tracks : Option Int := none
  year : Option Int := none
  genre : Option String := none
  rating : Option Int := none
  file_type : Option String := none
  has_drm : Option Bool := none
  show_name : Option String := none
  episode_id : Option String := none
  episode_number : Option Int := none
  season_number : Option Int := none
  kind : Option String := none
  net_lookup_enabled : Option Bool := none
  eligible_for_autodownload : Option Bool := none
  feed_url : Option String := none
  feed_expire : Option String := none
  feed_expire_time : Option Int := none
  feed_auto_downloadable : Option Bool := none
  feed_get_everything : Option Bool := none
  raw_icon_cache_filename : Option String := none
  downloader_content_type : Option String := none
  downloader_state : Option String := none
  reason_failed : Option String := none
  short_reason_failed : Option String := none
  downloader_type : Option String := none
  retry_time : Option Int := none
  eta : Option Int := none
  rate : Option Int := none
  upload_rate : Option Int := none
  downloaded_size : Option Int := none
  downloader_size : Option Int := none
  upload_size : Option Int := none
  startup_activity : Option String := none
  seeders : Option Int := none
  leechers : Option Int := none
  connections : Option Int := none
  deriving Repr, DecidableEq

/-- Python truthiness of a nullable string: `None` and the empty string are
falsy, every other string is truthy. -/
def truthyStr : Option String → Bool
  | none => false
  | some s => s ≠ ""

/-- Python truthiness of a nullable boolean: `None` is falsy. -/
def truthyBool : Option Bool → Bool
  | none => false
  | some b => b

/-- Python 2 comparison `x > 0` on a nullable integer: `None` compares less
than every number, so `None > 0` is `False`. -/
def pyGtZero : Option Int → Bool
  | none => false
  | some n => n > 0

/-- Python `int()` truncation of a rational toward zero (`Int.tdiv` is
truncated division, and a `Rat` is stored in lowest terms). -/
def pyTrunc (q : Rat) : Int := Int.tdiv q.num q.den

namespace ItemInfo

/-- `_unicode_to_filename`: converts a database unicode value to the platform
filename type.  The conversion is byte-encoding only (or the identity on
platforms whose filename type is unicode); we model paths as strings, so it
is the identity on the `Option String` model. -/
def unicodeToFilename (v : Option String) : Option String := v

/-- Property `filename`. -/
def filename (i : ItemInfo) : Option String := unicodeToFilename i.raw_filename

/-- Property `has_filename`: the raw filename is non-null. -/
def has_filename (i : ItemInfo) : Bool := i.raw_filename.isSome

/-- Property `downloaded`: alias of `has_filename`. -/
def downloaded (i : ItemInfo) : Bool := i.has_filename

/-- Property `icon_cache_filename`. -/
def icon_cache_filename (i : ItemInfo) : Option String :=
  unicodeToFilename i.raw_icon_cache_filename

/-- Property `cover_art_filename`. -/
def cover_art_filename (i : ItemInfo) : Option String :=
  unicodeToFilename i.cover_art

/-- Property `is_playable`. -/
def is_playable (i : ItemInfo) : Bool :=
  i.has_filename && !(i.file_type == some "other")

/-- Property `is_torrent`: `downloader_type == u'BitTorrent'`
(`None == 'BitTorrent'` is `False` in Python). -/
def is_torrent (i : ItemInfo) : Bool := i.downloader_type == some "BitTorrent"

/-- Property `is_torrent_folder`: `self.is_torrent and self.is_container_item`,
read as a truth value (the Python `and` returns `is_container_item` itself,
whose truthiness is what every caller tests). -/
def is_torrent_folder (i : ItemInfo) : Bool :=
  i.is_torrent && truthyBool i.is_container_item

/-- Property `is_download`: `downloader_state in ('downloading', 'paused')`;
a null state (no downloader row) is in neither. -/
def is_download (i : ItemInfo) : Bool :=
  i.downloader_state == some "downloading" || i.downloader_state == some "paused"

/-- Property `is_paused`. -/
def is_paused (i : ItemInfo) : Bool := i.downloader_state == some "paused"

/-- Property `is_seeding`. -/
def is_seeding (i : ItemInfo) : Bool := i.downloader_state == some "uploading"

/-- Property `is_failed_download`. -/
def is_failed_download (i : ItemInfo) : Bool := i.downloader_state == some "failed"

/-- Property `has_parent`. -/
def has_parent (i : ItemInfo) : Bool := i.parent_id.isSome

/-- Property `is_external`. -/
def is_external (i : ItemInfo) : Bool :=
  if truthyBool i.is_file_item then i.has_parent
  else i.feed_url == some "dtv:manualFeed"

/-- Property `has_shareable_url`: `self.url != u'' and not
self.url.startswith(u"file:")`.  When `url` is null the first conjunct
`None != u''` is `True`, so Python evaluates `None.startswith(...)` and
raises `AttributeError`. -/
def has_shareable_url (i : ItemInfo) : Except PyError Bool :=
  match i.url with
  | none => .error .attributeError
  | some u => .ok (u ≠ "" && !(u.startsWith "file:"))

/-- Property `video_watched`. -/
def video_watched (i : ItemInfo) : Bool := i.watched_time.isSome

/-- Property `can_be_saved`. -/
def can_be_saved (i : ItemInfo) : Bool :=
  i.has_filename && !(truthyBool i.keep)

/-- Modelled from the spec: `resources.path` (platform collaborator
`miro.plat.resources`, not in src/) maps a static resource name to its
installed path; modelled as the resource name itself, which keeps the three
default-image results distinct from each other and from any record path. -/
def resources_path (name : String) : String := name

/-- Property `thumbnail`, parameterized by the filesystem probe
`fileutil.exists` (per the spec a total `exists(path) -> bool`).  Branches in
source order: truthy cover_art whose file exists, then non-null icon-cache
filename whose file exists, then truthy screenshot whose file exists, then
the three static defaults.  Each branch that passes a path to the probe or
returns it does so under a guard making the path a concrete string, so
`Option.getD ""` reads exactly that string. -/
def thumbnail (fsExists : String → Bool) (i : ItemInfo) : String :=
  if truthyStr i.cover_art && fsExists (i.cover_art_filename.getD "") then
    i.cover_art_filename.getD ""
  else if i.raw_icon_cache_filename.isSome &&
      fsExists (i.icon_cache_filename.getD "") then
    i.icon_cache_filename.getD ""
  else if truthyStr i.screenshot && fsExists (i.screenshot.getD "") then
    i.screenshot.getD ""
  else if truthyBool i.is_container_item then
    resources_path "images/thumb-default-folder.png"
  else if i.file_type == some "audio" then
    resources_path "images/thumb-default-audio.png"
  else
    resources_path "images/thumb-default-video.png"

/-- Property `size`, parameterized by the filesystem size probe:
`getsize path = none` models `os.path.getsize` raising `OSError`, which the
body catches and turns into `None`.  Priority: physical file size when a
filename is present, else downloader total size when `is_download`, else the
RSS enclosure size. -/
def size (getsize : String → Option Int) (i : ItemInfo) : Option Int :=
  if i.has_filename then getsize (i.filename.getD "")
  else if i.is_download then i.downloader_size
  else i.enclosure_size

/-- Property `expiration_date`, parameterized by the configuration value
`prefs.EXPIRE_AFTER_X_DAYS` (integer day count).  Datetimes are modelled as
integer epoch seconds and `datetime.timedelta(days=d)` as `86400 * d`.

The guard returns null when watched_time is null, the filename is null, or
keep is truthy.  Past the guard: `never` gives null; the `"feed"` branch of
the source reads the bare name `feed_expire_time` — no local, module-level
or builtin binding of that name exists (`feed_expire_time` is only an
attribute name), so Python raises `NameError` there; `"system"` gives null
for a non-positive configured day count and otherwise watched_time plus the
day count as a duration; any other value raises `AssertionError`. -/
def expiration_date (expireAfterXDays : Int) (i : ItemInfo) :
    Except PyError (Option Int) :=
  if i.watched_time.isNone || !i.has_filename || truthyBool i.keep then
    .ok none
  else if i.feed_expire == some "never" then
    .ok none
  else if i.feed_expire == some "feed" then
    .error .nameError
  else if i.feed_expire == some "system" then
    if expireAfterXDays ≤ 0 then .ok none
    else .ok (some (i.watched_time.getD 0 + 86400 * expireAfterXDays))
  else
    .error .assertionError

/-- Property `download_progress`.  Source order: `downloaded_size in
(0, None)` returns `0.0` first; then a (dead) null check returns `None` when
`downloader_size` is null; then float division, which raises
`ZeroDivisionError` when `downloader_size` is `0`. -/
def download_progress (i : ItemInfo) : Except PyError (Option Rat) :=
  if i.downloaded_size == some 0 || i.downloaded_size.isNone then
    .ok (some 0)
  else if i.downloaded_size.isNone || i.downloader_size.isNone then
    .ok none
  else if i.downloader_size == some 0 then
    .error .zeroDivisionError
  else
    .ok (some ((i.downloaded_size.getD 0 : Rat) / (i.downloader_size.getD 0 : Rat)))

/-- Property `upload_ratio`: `float(self.upload_size) / self.downloaded_size`
with no null guard.  `float(None)` raises `TypeError`; a float divided by
`None` raises `TypeError`; division by zero raises `ZeroDivisionError`. -/
def upload_ratio (i : ItemInfo) : Except PyError Rat :=
  match i.upload_size with
  | none => .error .typeError
  | some u =>
    match i.downloaded_size with
    | none => .error .typeError
    | some d =>
      if d = 0 then .error .zeroDivisionError
      else .ok ((u : Rat) / (d : Rat))

/-- Property `pending_auto_dl`. -/
def pending_auto_dl (i : ItemInfo) : Bool :=
  truthyBool i.feed_auto_downloadable &&
  !(truthyBool i.was_downloaded) &&
  truthyBool i.feed_auto_downloadable &&
  (truthyBool i.feed_get_everything || truthyBool i.eligible_for_autodownload)

/-- Property `auto_rating`: `SKIP_FACTOR = 1.5`, `UNSKIPPED_FACTOR = 2`;
Python 2 comparisons treat a null count as not `> 0`. -/
def auto_rating (i : ItemInfo) : Option Int :=
  if pyGtZero i.play_count then
    if pyGtZero i.skip_count then
      some (min 5 (max 1 (pyTrunc ((i.play_count.getD 0 : Rat) -
        (3 : Rat) / 2 * (i.skip_count.getD 0 : Rat)))))
    else
      some (min 5 (2 * i.play_count.getD 0))
  else if pyGtZero i.skip_count then
    some 1
  else
    none

/-- Property `duration`: stored milliseconds floor-divided by 1000 (Python
`//` is floor division), or null when the stored value is null. -/
def duration (i : ItemInfo) : Option Int :=
  match i.duration_ms with
  | none => none
  | some ms => some (Int.fdiv ms 1000)

end ItemInfo

/-- `fetch_item_infos`, with the relational store modelled per the spec's
collaborator interface (it executes the built
`SELECT ... WHERE item.id IN (<ids>)` and returns the matching rows): the
store is a list of joined rows and the `IN` predicate is membership of the
row's item id in the requested id list.  Each returned row is materialized
positionally into an ItemInfo (our rows already are ItemInfo values). -/
def fetch_item_infos (connection : List ItemInfo) (item_ids : List Int) :
    List ItemInfo :=
  (connection.filter (fun row => item_ids.contains row.id)).map (fun row => row)

/-- The all-null row: a freshly inserted item with no related feed,
downloader or icon-cache row; base record for the concrete witnesses. -/
def nullItem : ItemInfo := {}

/-- A paused BitTorrent container item. -/
def recPausedTorrentFolder : ItemInfo :=
  { nullItem with downloader_state := some "paused",
                  downloader_type := some "BitTorrent",
                  is_container_item := some true }

/-- A row with a recorded filename (whose on-disk file may be gone). -/
def recSizeFile : ItemInfo := { nullItem with raw_filename := some "video.mp4" }

/-- An in-progress download: 1 byte of 2 transferred. -/
def recProgressHalf : ItemInfo :=
  { nullItem with downloader_state := some "downloading",
                  downloaded_size := some 1, downloader_size := some 2 }

/-- An in-progress download whose total size is not yet known. -/
def recProgressUnknownTotal : ItemInfo :=
  { nullItem with downloader_state := some "downloading",
                  downloaded_size := some 0, downloader_size := none }

/-- A row with cover art recorded but missing on disk and an icon-cache file
present on disk (paired with the probe `fun p => p == "icon.png"`). -/
def recCoverMissingIconPresent : ItemInfo :=
  { nullItem with cover_art := some "cover.png",
                  raw_icon_cache_filename := some "icon.png" }

/-- A row whose only thumbnail candidate is a screenshot path that is
missing on disk. -/
def recScreenshotMissing : ItemInfo :=
  { nullItem with screenshot := some "shot.png" }

/-- A watched, kept-on-disk, not-kept row in a feed with an unrecognized
expiration policy value. -/
def recWatchedBogusExpire : ItemInfo :=
  { nullItem with watched_time := some 100, raw_filename := some "f.mp4",
                  keep := some false, feed_expire := some "bogus" }

/-- An unwatched row in a feed with an unrecognized expiration policy. -/
def recUnwatchedBogusExpire : ItemInfo :=
  { nullItem with feed_expire := some "bogus" }

/-- A watched, kept-on-disk, not-kept row in a feed with the "feed"
expiration policy and a configured feed expire duration. -/
def recFeedPolicyWatched : ItemInfo :=
  { nullItem with watched_time := some 1000, raw_filename := some "f.mp4",
                  keep := some false, feed_expire := some "feed",
                  feed_expire_time := some 3600 }

/-- A row played 4 times and skipped twice. -/
def recPlayedSkipped : ItemInfo :=
  { nullItem with play_count := some 4, skip_count := some 2 }

/-- A row with a known 65-second duration. -/
def recDuration : ItemInfo := { nullItem with duration_ms := some 65000 }

/-- C9: `duration` equals `duration_ms` floor-divided by 1000 when
`duration_ms` is non-null, and is null when `duration_ms` is null. -/
theorem duration_spec (i : ItemInfo) :
    (i.duration_ms = none → i.duration = none) ∧
    (∀ ms : Int, i.duration_ms = some ms → i.duration = some (Int.fdiv ms 1000)) := by
  constructor
  · intro h
    simp [ItemInfo.duration, h]
  · intro ms h
    simp [ItemInfo.duration, h]

/-- C9 witness: a record with `duration_ms = 65000` has `duration = 65`. -/
theorem duration_spec_witness : recDuration.duration = some 65 :=
  (duration_spec recDuration).2 65000 rfl

/-- C10: for every record, `is_paused` implies `is_download` and
`is_torrent_folder` implies `is_torrent`. -/
theorem status_flag_implications (i : ItemInfo) :
    (i.is_paused = true → i.is_download = true) ∧
    (i.is_torrent_folder = true → i.is_torrent = true) := by
  constructor
  · intro h
    simp only [ItemInfo.is_paused] at h
    simp only [ItemInfo.is_download, h, Bool.or_true]
  · intro h
    exact (Bool.and_eq_true _ _ |>.mp h).1

/-- C10 witness: a paused BitTorrent container item is a download in
progress and is a torrent. -/
theorem status_flag_implications_witness :
    recPausedTorrentFolder.is_download = true ∧
    recPausedTorrentFolder.is_torrent = true :=
  ⟨(status_flag_implications recPausedTorrentFolder).1 (by decide),
   (status_flag_implications recPausedTorrentFolder).2 (by decide)⟩

/-- C7: auto_rating is null when both counts are zero; the truncation of
play_count − 1.5·skip_count clamped to [1, 5] when both are positive;
2·play_count clamped above at 5 when only play_count is positive; and the
fixed value 1 when only skip_count is positive. -/
theorem auto_rating_spec (i : ItemInfo) (p s : Int)
    (hp : i.play_count = some p) (hs : i.skip_count = some s)
    (_hp0 : 0 ≤ p) (_hs0 : 0 ≤ s) :
    (p = 0 → s = 0 → i.auto_rating = none) ∧
    (0 < p → 0 < s → i.auto_rating =
      some (min 5 (max 1 (pyTrunc ((p : Rat) - 3 / 2 * (s : Rat)))))) ∧
    (0 < p → s = 0 → i.auto_rating = some (min 5 (2 * p))) ∧
    (p = 0 → 0 < s → i.auto_rating = some 1) := by
  refine ⟨?_, ?_, ?_, ?_⟩
  · intro hpz hsz
    simp [ItemInfo.auto_rating, pyGtZero, hp, hs, hpz, hsz]
  · intro hpp hsp
    simp [ItemInfo.auto_rating, pyGtZero, hp, hs, hpp, hsp]
  · intro hpp hsz
    simp [ItemInfo.auto_rating, pyGtZero, hp, hs, hpp, hsz]
  · intro hpz hsp
    simp [ItemInfo.auto_rating, pyGtZero, hp, hs, hpz, hsp]

/-- C7 witness: play_count = 4, skip_count = 2 gives rating 1. -/
theorem auto_rating_spec_witness : recPlayedSkipped.auto_rating = some 1 := by
  have h := (auto_rating_spec recPlayedSkipped 4 2 rfl rfl (by norm_num)
    (by norm_num)).2.1 (by norm_num) (by norm_num)
  rw [h]
  have h1 : ((4 : Int) : Rat) - 3 / 2 * ((2 : Int) : Rat) = 1 := by norm_num
  rw [h1]
  have h2 : pyTrunc 1 = 1 := by norm_num [pyTrunc]
  rw [h2]
  norm_num

/-- C6: size uses, in priority order, the filesystem size of the recorded
file (null when the probe fails), else the downloader total size when the
record is a download in progress, else the RSS enclosure size. -/
theorem size_priority_spec (getsize : String → Option Int) (i : ItemInfo) :
    (∀ fn, i.raw_filename = some fn → i.size getsize = getsize fn) ∧
    (i.raw_filename = none → i.is_download = true →
      i.size getsize = i.downloader_size) ∧
    (i.raw_filename = none → i.is_download = false →
      i.size getsize = i.enclosure_size) := by
  refine ⟨?_, ?_, ?_⟩
  · intro fn h
    simp [ItemInfo.size, ItemInfo.has_filename, ItemInfo.filename,
      ItemInfo.unicodeToFilename, h]
  · intro h hd
    simp [ItemInfo.size, ItemInfo.has_filename, h, hd]
  · intro h hd
    simp [ItemInfo.size, ItemInfo.has_filename, h, hd]

/-- C6 witness: a record with a filename whose filesystem lookup fails has a
null size; the failure affects only this property. -/
theorem size_priority_spec_witness :
    recSizeFile.size (fun _ => none) = none :=
  (size_priority_spec (fun _ => none) recSizeFile).1 "video.mp4" rfl

/-- C4: fetching with an empty id list, or with an id list matching no row
of the store, returns the empty list and no error. -/
theorem fetch_item_infos_empty_or_unknown (connection : List ItemInfo)
    (item_ids : List Int) :
    (item_ids = [] → fetch_item_infos connection item_ids = []) ∧
    ((∀ r ∈ connection, r.id ∉ item_ids) →
      fetch_item_infos connection item_ids = []) := by
  constructor
  · intro h
    subst h
    simp [fetch_item_infos]
  · intro h
    simp only [fetch_item_infos, List.map_eq_nil_iff, List.filter_eq_nil_iff]
    intro r hr
    simpa using h r hr

/-- C4 witness: an id matching no row yields the empty list. -/
theorem fetch_item_infos_empty_or_unknown_witness :
    fetch_item_infos [nullItem] [42] = [] :=
  (fetch_item_infos_empty_or_unknown [nullItem] [42]).2 (by decide)

/-- C2 counterexample: a record whose downloader-reported total size is
unknown (null) but whose downloaded size is 0 yields 0.0, not null: the
`downloaded_size in (0, None)` check runs before the unknown-total check. -/
theorem download_progress_zero_when_total_unknown :
    recProgressUnknownTotal.downloader_size = none ∧
    recProgressUnknownTotal.download_progress = .ok (some 0) ∧
    recProgressUnknownTotal.download_progress ≠ .ok none := by
  refine ⟨rfl, rfl, ?_⟩
  rw [show recProgressUnknownTotal.download_progress = .ok (some 0) from rfl]
  intro h
  simp at h

/-- C2 (amended): download_progress is 0.0 whenever the downloaded size is
null or zero — this check runs first, even when the total size is unknown;
otherwise it is null when the total size is unknown; otherwise it is
downloaded/total, a fraction in (0, 1] under 1 ≤ downloaded ≤ total. -/
theorem download_progress_spec (i : ItemInfo) :
    ((i.downloaded_size = none ∨ i.downloaded_size = some 0) →
      i.download_progress = .ok (some 0)) ∧
    (∀ d : Int, i.downloaded_size = some d → d ≠ 0 → i.downloader_size = none →
      i.download_progress = .ok none) ∧
    (∀ d t : Int, i.downloaded_size = some d → i.downloader_size = some t →
      1 ≤ d → d ≤ t →
      i.download_progress = .ok (some ((d : Rat) / (t : Rat))) ∧
      0 < (d : Rat) / (t : Rat) ∧ (d : Rat) / (t : Rat) ≤ 1) := by
  refine ⟨?_, ?_, ?_⟩
  · rintro (h | h) <;> simp [ItemInfo.download_progress, h]
  · intro d hd hdz hts
    simp [ItemInfo.download_progress, hd, hdz, hts]
  · intro d t hd ht h1 hdt
    have hdne : d ≠ 0 := by omega
    have htne : t ≠ 0 := by omega
    have hd0 : (0 : Rat) < (d : Rat) := by exact_mod_cast (by omega : (0 : Int) < d)
    have ht0 : (0 : Rat) < (t : Rat) := by exact_mod_cast (by omega : (0 : Int) < t)
    refine ⟨?_, div_pos hd0 ht0, ?_⟩
    · simp [ItemInfo.download_progress, hd, ht, hdne, htne]
    · rw [div_le_one ht0]
      exact_mod_cast hdt

/-- C2 witness: 1 byte downloaded of a known total of 2 gives 1/2. -/
theorem download_progress_spec_witness :
    recProgressHalf.download_progress = .ok (some ((1 : Rat) / 2)) :=
  ((download_progress_spec recProgressHalf).2.2 1 2 rfl rfl (by norm_num)
    (by norm_num)).1

/-- C3 counterexample: on the all-null row (null downloader_id and all
downloader columns null), `upload_ratio` raises TypeError instead of
degrading, and `has_shareable_url` raises AttributeError on the null url. -/
theorem upload_ratio_raises_on_null :
    nullItem.downloader_id = none ∧
    nullItem.upload_size = none ∧
    nullItem.downloaded_size = none ∧
    nullItem.upload_ratio = .error PyError.typeError ∧
    nullItem.has_shareable_url = .error PyError.attributeError :=
  ⟨rfl, rfl, rfl, rfl, rfl⟩

/-- C3 (amended): on records with null downloader columns every
downloader-derived flag degrades to false — except `upload_ratio`, which
raises TypeError on a null upload or downloaded size, and
`has_shareable_url`, which raises AttributeError on a null url. -/
theorem downloader_null_degrades (i : ItemInfo)
    (hst : i.downloader_state = none) (hty : i.downloader_type = none)
    (hus : i.upload_size = none) :
    i.is_download = false ∧ i.is_paused = false ∧ i.is_seeding = false ∧
    i.is_failed_download = false ∧ i.is_torrent = false ∧
    i.is_torrent_folder = false ∧
    i.upload_ratio = .error PyError.typeError ∧
    (i.url = none → i.has_shareable_url = .error PyError.attributeError) := by
  refine ⟨?_, ?_, ?_, ?_, ?_, ?_, ?_, ?_⟩
  · simp [ItemInfo.is_download, hst]
  · simp [ItemInfo.is_paused, hst]
  · simp [ItemInfo.is_seeding, hst]
  · simp [ItemInfo.is_failed_download, hst]
  · simp [ItemInfo.is_torrent, hty]
  · simp [ItemInfo.is_torrent_folder, ItemInfo.is_torrent, hty]
  · simp [ItemInfo.upload_ratio, hus]
  · intro hu
    simp [ItemInfo.has_shareable_url, hu]

/-- C3 witness: the all-null row has false flags and a raising
`upload_ratio`. -/
theorem downloader_null_degrades_witness :
    nullItem.is_download = false ∧
    nullItem.upload_ratio = .error PyError.typeError :=
  ⟨(downloader_null_degrades nullItem rfl rfl rfl).1,
   (downloader_null_degrades nullItem rfl rfl rfl).2.2.2.2.2.2.1⟩

/-- C5 counterexample: the screenshot branch does check on-disk existence:
a record whose screenshot is set but missing on disk falls through to the
default video image instead of returning the screenshot path. -/
theorem thumbnail_screenshot_existence_checked :
    recScreenshotMissing.screenshot = some "shot.png" ∧
    ItemInfo.thumbnail (fun _ => false) recScreenshotMissing =
      "images/thumb-default-video.png" ∧
    ItemInfo.thumbnail (fun _ => false) recScreenshotMissing ≠ "shot.png" := by
  refine ⟨rfl, rfl, by decide⟩

/-- C5 (amended): the thumbnail fallback chain, first match wins: existing
cover-art file, existing icon-cache file, existing screenshot file (the
screenshot branch also probes existence), default folder image for container
items, default audio image for audio, default video image otherwise. -/
theorem thumbnail_chain_spec (fs : String → Bool) (i : ItemInfo) :
    ((truthyStr i.cover_art && fs (i.cover_art_filename.getD "")) = true →
      i.thumbnail fs = i.cover_art_filename.getD "") ∧
    ((truthyStr i.cover_art && fs (i.cover_art_filename.getD "")) = false →
      (i.raw_icon_cache_filename.isSome &&
        fs (i.icon_cache_filename.getD "")) = true →
      i.thumbnail fs = i.icon_cache_filename.getD "") ∧
    ((truthyStr i.cover_art && fs (i.cover_art_filename.getD "")) = false →
      (i.raw_icon_cache_filename.isSome &&
        fs (i.icon_cache_filename.getD "")) = false →
      (truthyStr i.screenshot && fs (i.screenshot.getD "")) = true →
      i.thumbnail fs = i.screenshot.getD "") ∧
    ((truthyStr i.cover_art && fs (i.cover_art_filename.getD "")) = false →
      (i.raw_icon_cache_filename.isSome &&
        fs (i.icon_cache_filename.getD "")) = false →
      (truthyStr i.screenshot && fs (i.screenshot.getD "")) = false →
      truthyBool i.is_container_item = true →
      i.thumbnail fs = ItemInfo.resources_path "images/thumb-default-folder.png") ∧
    ((truthyStr i.cover_art && fs (i.cover_art_filename.getD "")) = false →
      (i.raw_icon_cache_filename.isSome &&
        fs (i.icon_cache_filename.getD "")) = false →
      (truthyStr i.screenshot && fs (i.screenshot.getD "")) = false →
      truthyBool i.is_container_item = false →
      (i.file_type == some "audio") = true →
      i.thumbnail fs = ItemInfo.resources_path "images/thumb-default-audio.png") ∧
    ((truthyStr i.cover_art && fs (i.cover_art_filename.getD "")) = false →
      (i.raw_icon_cache_filename.isSome &&
        fs (i.icon_cache_filename.getD "")) = false →
      (truthyStr i.screenshot && fs (i.screenshot.getD "")) = false →
      truthyBool i.is_container_item = false →
      (i.file_type == some "audio") = false →
      i.thumbnail fs = ItemInfo.resources_path "images/thumb-default-video.png") := by
  refine ⟨?_, ?_, ?_, ?_, ?_, ?_⟩
  · intro h1
    simp [ItemInfo.thumbnail, h1]
  · intro h1 h2
    simp [ItemInfo.thumbnail, h1, h2]
  · intro h1 h2 h3
    simp [ItemInfo.thumbnail, h1, h2, h3]
  · intro h1 h2 h3 h4
    simp [ItemInfo.thumbnail, h1, h2, h3, h4]
  · intro h1 h2 h3 h4 h5
    simp [ItemInfo.thumbnail, h1, h2, h3, h4, h5]
  · intro h1 h2 h3 h4 h5
    simp [ItemInfo.thumbnail, h1, h2, h3, h4, h5]

/-- C5 witness: cover_art set but missing on disk, icon-cache file present:
the result is the icon-cache path. -/
theorem thumbnail_chain_spec_witness :
    ItemInfo.thumbnail (fun p => p == "icon.png") recCoverMissingIconPresent =
      "icon.png" :=
  (thumbnail_chain_spec (fun p => p == "icon.png")
    recCoverMissingIconPresent).2.1 (by decide) (by decide)

/-- C8 counterexample: a record with the unrecognized feed_expire value
"bogus" but a null watched_time evaluates expiration_date to null without
raising: the null guard runs before feed_expire is examined. -/
theorem expiration_unknown_value_silent_when_unwatched :
    recUnwatchedBogusExpire.feed_expire = some "bogus" ∧
    recUnwatchedBogusExpire.watched_time = none ∧
    ItemInfo.expiration_date 6 recUnwatchedBogusExpire = .ok none :=
  ⟨rfl, rfl, rfl⟩

/-- C8 (amended): expiration_date raises AssertionError on an unrecognized
feed_expire value only for records that pass the guard — watched_time set,
filename non-null, keep falsy; otherwise it returns null without examining
feed_expire. -/
theorem expiration_unknown_value_raises (days : Int) (i : ItemInfo)
    (hw : i.watched_time.isSome = true) (hf : i.raw_filename.isSome = true)
    (hk : truthyBool i.keep = false)
    (h1 : i.feed_expire ≠ some "never") (h2 : i.feed_expire ≠ some "feed")
    (h3 : i.feed_expire ≠ some "system") :
    ItemInfo.expiration_date days i = .error PyError.assertionError := by
  obtain ⟨w, hw'⟩ := Option.isSome_iff_exists.mp hw
  simp [ItemInfo.expiration_date, ItemInfo.has_filename, hw', hf, hk,
    beq_iff_eq, h1, h2, h3]

/-- C8 witness: a watched, on-disk, not-kept record with feed_expire
"bogus" raises AssertionError. -/
theorem expiration_unknown_value_raises_witness :
    ItemInfo.expiration_date 6 recWatchedBogusExpire =
      .error PyError.assertionError :=
  expiration_unknown_value_raises 6 recWatchedBogusExpire rfl rfl rfl
    (by decide) (by decide) (by decide)

/-- C1: evaluating expiration_date on a watched, on-disk, not-kept record in
a feed with the "feed" expiration policy raises NameError — the source body
reads the unbound bare name `feed_expire_time` — instead of returning
watched_time plus the feed's configured expire duration. -/
theorem expiration_feed_branch_raises :
    recFeedPolicyWatched.feed_expire = some "feed" ∧
    recFeedPolicyWatched.watched_time = some 1000 ∧
    recFeedPolicyWatched.raw_filename = some "f.mp4" ∧
    recFeedPolicyWatched.keep = some false ∧
    recFeedPolicyWatched.feed_expire_time = some 3600 ∧
    ItemInfo.expiration_date 6 recFeedPolicyWatched = .error PyError.nameError ∧
    ItemInfo.expiration_date 6 recFeedPolicyWatched ≠ .ok (some (1000 + 3600)) := by
  refine ⟨rfl, rfl, rfl, rfl, rfl, rfl, ?_⟩
  rw [show ItemInfo.expiration_date 6 recFeedPolicyWatched =
    .error PyError.nameError from rfl]
  intro h
  simp at h

